import Mathlib

/-!
Verification of the audit logging subsystem of the repository
(`audit_logger.py`): the record store (`log_operation`, `get_audit_logs`),
the error recorder (`log_error`) and the operation interceptor
(`audit_log` decorator).  Python runtime values that flow through the
audit pipeline are embedded as the inductive type `PyVal`; the sqlite
table `audit_logs` is embedded as a list of `AuditRow` in insertion
order together with the next AUTOINCREMENT id.
-/

namespace AuditLog

/-- Embedding of the Python values that reach the audit code:
JSON-representable scalars, lists and string-keyed dicts, plus
`vOpaque`, which stands for any object `json.dumps` cannot serialize
(service handles, client objects, ...).  Floats are not modelled; none
of the audited paths require them. -/
inductive PyVal where
  | vNone : PyVal
  | vBool (b : Bool) : PyVal
  | vInt (n : Int) : PyVal
  | vStr (s : String) : PyVal
  | vList (xs : List PyVal) : PyVal
  | vDict (kvs : List (String × PyVal)) : PyVal
  | vOpaque (tag : String) : PyVal

/-- Python truthiness of a value, as used by `if parameters else None`
and `if kwargs:`: `None`, `False`, `0`, `""`, `[]` and `{}` are falsy. -/
def pyTruthy : PyVal → Bool
  | .vNone => false
  | .vBool b => b
  | .vInt n => n != 0
  | .vStr s => !s.isEmpty
  | .vList xs => !xs.isEmpty
  | .vDict kvs => !kvs.isEmpty
  | .vOpaque _ => true

mutual

/-- Whether `json.dumps` succeeds on the value: it raises `TypeError`
exactly when some `vOpaque` occurs inside the value. -/
def jsonSerializable : PyVal → Bool
  | .vNone => true
  | .vBool _ => true
  | .vInt _ => true
  | .vStr _ => true
  | .vList xs => jsonSerializableList xs
  | .vDict kvs => jsonSerializableDict kvs
  | .vOpaque _ => false

/-- Serializability of every element of a list. -/
def jsonSerializableList : List PyVal → Bool
  | [] => true
  | x :: xs => jsonSerializable x && jsonSerializableList xs

/-- Serializability of every value of a string-keyed dict. -/
def jsonSerializableDict : List (String × PyVal) → Bool
  | [] => true
  | kv :: kvs => jsonSerializable kv.2 && jsonSerializableDict kvs

end

/-- One row of the sqlite table `audit_logs` (see `init_database`).
The JSON TEXT columns `parameters` and `result_data` are represented by
the value the stored text encodes: `json.dumps` on string-keyed dicts,
lists and scalars is lossless and `json.loads` inverts it, so the
serialized text is embedded as the `PyVal` it denotes (NULL is `none`). -/
structure AuditRow where
  id : Nat
  timestamp : Nat
  user_id : String
  customer_id : String
  operation_type : String
  resource_type : String
  resource_id : Option String
  function_name : String
  parameters : Option PyVal
  result_status : Option String
  result_data : Option PyVal
  error_message : Option String
  error_type : Option String
  error_code : Option String
  stack_trace : Option String
  execution_time_ms : Option Nat
  session_id : String

/-- The audit database: rows in insertion order plus the next
AUTOINCREMENT surrogate id.  `timestamp` is the store-assigned
`CURRENT_TIMESTAMP` in whole seconds since the epoch (the sqlite
datetime text format compares the same way the numbers do). -/
structure AuditDB where
  rows : List AuditRow
  nextId : Nat

/-- The empty store produced by `init_database` on a fresh path. -/
def emptyDB : AuditDB := { rows := [], nextId := 0 }

/-- Ambient identity context read by `get_user_id`, `get_customer_id`
and `get_session_id` (streamlit session state), together with the clock
value the store stamps on an insert. -/
structure LogCtx where
  user_id : String
  customer_id : String
  session_id : String
  now : Nat

/-- The expression `json.dumps(v) if v else None` applied to an
optional column value: falsy values store NULL, truthy values are
serialized, and a truthy non-serializable value raises `TypeError`
(modelled as `Except.error ()`). -/
def serializeField (v : Option PyVal) : Except Unit (Option PyVal) :=
  match v with
  | none => .ok none
  | some x =>
      if pyTruthy x then
        if jsonSerializable x then .ok (some x) else .error ()
      else .ok none

/-- The row the INSERT statement of `log_operation` stores, given the
already-serialized `parameters` and `result_data` column texts. -/
def insertedRow (db : AuditDB) (ctx : LogCtx)
    (operation_type resource_type function_name : String)
    (pText : Option PyVal) (resource_id : Option String)
    (result_status : String) (rText : Option PyVal)
    (error_message error_type error_code stack_trace : Option String)
    (execution_time_ms : Option Nat) : AuditRow :=
  { id := db.nextId
    timestamp := ctx.now
    user_id := ctx.user_id
    customer_id := ctx.customer_id
    operation_type := operation_type
    resource_type := resource_type
    resource_id := resource_id
    function_name := function_name
    parameters := pText
    result_status := some result_status
    result_data := rText
    error_message := error_message
    error_type := error_type
    error_code := error_code
    stack_trace := stack_trace
    execution_time_ms := execution_time_ms
    session_id := ctx.session_id }

/-- Body of the `try:` block of `log_operation`: serialize the two JSON
columns (raising on a non-serializable truthy value) and append the
row.  Argument order matches the INSERT tuple, so `parameters` is
serialized before `result_data`. -/
def logOperationTry (db : AuditDB) (ctx : LogCtx)
    (operation_type resource_type function_name : String)
    (parameters : Option PyVal) (resource_id : Option String)
    (result_status : String) (result_data : Option PyVal)
    (error_message error_type error_code stack_trace : Option String)
    (execution_time_ms : Option Nat) : Except Unit AuditDB := do
  let pText ← serializeField parameters
  let rText ← serializeField result_data
  .ok { rows := db.rows ++
          [insertedRow db ctx operation_type resource_type function_name
            pText resource_id result_status rText
            error_message error_type error_code stack_trace
            execution_time_ms]
        nextId := db.nextId + 1 }

/-- `AuditLogger.log_operation`: the whole body runs inside
`try ... except Exception: print(...)`, so any failure (such as
`json.dumps` raising `TypeError`) is swallowed and the store is left
unchanged; the method never raises to its caller. -/
def log_operation (db : AuditDB) (ctx : LogCtx)
    (operation_type resource_type function_name : String)
    (parameters : Option PyVal) (resource_id : Option String)
    (result_status : String) (result_data : Option PyVal)
    (error_message error_type error_code stack_trace : Option String)
    (execution_time_ms : Option Nat) : AuditDB :=
  match logOperationTry db ctx operation_type resource_type function_name
      parameters resource_id result_status result_data
      error_message error_type error_code stack_trace execution_time_ms with
  | .ok db2 => db2
  | .error _ => db

/-- Filter arguments of `get_audit_logs`.  In Python each filter is
applied only when the argument is truthy (`if user_id:`), so an empty
string behaves like an absent filter; dates compare on the timestamp. -/
structure QueryFilters where
  user_id : Option String := none
  customer_id : Option String := none
  operation_type : Option String := none
  resource_type : Option String := none
  start_date : Option Nat := none
  end_date : Option Nat := none

/-- No filters: the query `SELECT * FROM audit_logs WHERE 1=1`. -/
def noFilters : QueryFilters := {}

/-- One string equality filter clause: skipped when the argument is
absent or empty (Python truthiness), otherwise `column = ?`. -/
def strFilter (f : Option String) (v : String) : Bool :=
  match f with
  | none => true
  | some s => if s.isEmpty then true else s == v

/-- The conjunction of WHERE clauses built by `get_audit_logs`. -/
def rowMatches (f : QueryFilters) (r : AuditRow) : Bool :=
  strFilter f.user_id r.user_id &&
  strFilter f.customer_id r.customer_id &&
  strFilter f.operation_type r.operation_type &&
  strFilter f.resource_type r.resource_type &&
  (match f.start_date with | none => true | some d => decide (d ≤ r.timestamp)) &&
  (match f.end_date with | none => true | some d => decide (r.timestamp ≤ d))

/-- The order `ORDER BY timestamp DESC` yields for this table: sqlite
satisfies the ORDER BY with a backward scan of `idx_timestamp`, whose
entries are keyed `(timestamp, rowid)` ascending, so rows come out in
descending timestamp order with equal timestamps in descending rowid
order.  `qLE a b` says `a` may come before `b`. -/
def qLE (a b : AuditRow) : Bool :=
  b.timestamp < a.timestamp || (a.timestamp == b.timestamp && b.id ≤ a.id)

/-- Insert a row into a list already sorted by `qLE`. -/
def insertSorted (x : AuditRow) : List AuditRow → List AuditRow
  | [] => [x]
  | y :: ys => if qLE x y then x :: y :: ys else y :: insertSorted x ys

/-- Sort rows by `qLE` (insertion sort). -/
def sortRows : List AuditRow → List AuditRow
  | [] => []
  | x :: xs => insertSorted x (sortRows xs)

/-- `AuditLogger.get_audit_logs`: apply the WHERE clauses, the ORDER BY
and the LIMIT, then parse the JSON columns back.  Parsing the text
`json.dumps` produced recovers the stored value, and a NULL column is
skipped (`if log_entry['parameters']:`), so in this embedding the
parse step is the identity on each row. -/
def get_audit_logs (db : AuditDB) (f : QueryFilters) (limit : Nat) :
    List AuditRow :=
  (sortRows (db.rows.filter (rowMatches f))).take limit

/-- Escape a character for a JSON string literal the way `json.dumps`
does for the characters that occur here (backslash and double quote;
control and non-ASCII escapes are not needed by the audited values). -/
def jsonEscapeChar (c : Char) : String :=
  if c = '\\' then "\\\\"
  else if c = '\"' then "\\\""
  else String.singleton c

/-- Escape a whole string for a JSON string literal. -/
def jsonEscape (s : String) : String :=
  String.join (s.toList.map jsonEscapeChar)

mutual

/-- The text `json.dumps` prints for a serializable value, with the
default separators of the Python `json` module.  On `vOpaque` (where
the real call raises instead of returning) an arbitrary marker is
produced; callers only apply this to serializable values. -/
def jsonStr : PyVal → String
  | .vNone => "null"
  | .vBool true => "true"
  | .vBool false => "false"
  | .vInt n => toString n
  | .vStr s => "\"" ++ jsonEscape s ++ "\""
  | .vList xs => "[" ++ jsonStrList xs ++ "]"
  | .vDict kvs => "\x7b" ++ jsonStrDict kvs ++ "\x7d"
  | .vOpaque _ => "<unserializable>"

/-- Comma-joined renderings of list elements. -/
def jsonStrList : List PyVal → String
  | [] => ""
  | [x] => jsonStr x
  | x :: xs => jsonStr x ++ ", " ++ jsonStrList xs

/-- Comma-joined renderings of dict entries. -/
def jsonStrDict : List (String × PyVal) → String
  | [] => ""
  | [kv] => "\"" ++ jsonEscape kv.1 ++ "\": " ++ jsonStr kv.2
  | kv :: kvs =>
      "\"" ++ jsonEscape kv.1 ++ "\": " ++ jsonStr kv.2 ++ ", " ++ jsonStrDict kvs

end

/-- One element of `error.failure.errors` of a vendor (Google Ads API)
exception.  `error_code_name` models
`getattr(err, 'error_code', \x7b\x7d).get('name', 'UNKNOWN')`: it is `some n`
when the sub-error carries an `error_code` mapping with a `name`, and
`none` when the attribute or the name is missing (both yield the
`'UNKNOWN'` default).  `message` models `getattr(err, 'message',
str(err))` with `str_repr` the fallback `str(err)`; `location` models
`getattr(err, 'location', None)`. -/
structure SubError where
  error_code_name : Option String
  message : Option String
  str_repr : String
  location : Option String

/-- A Python exception as probed by the audit code:
`type_name` is `type(e).__name__`, `msg` is `str(e)`,
`failure_errors` is `e.failure.errors` when both attributes exist,
and `code` is `str(e.code)` when the `code` attribute exists. -/
structure PyErr where
  type_name : String
  msg : String
  failure_errors : Option (List SubError)
  code : Option String

/-- The dict built for one sub-error inside the extraction loop. -/
def subErrorInfo (err : SubError) : PyVal :=
  .vDict [("error_code", .vStr (err.error_code_name.getD "UNKNOWN")),
          ("message", .vStr (err.message.getD err.str_repr)),
          ("location",
            match err.location with
            | some l => .vStr l
            | none => .vNone)]

/-- The `(error_message, error_code)` pair computed by the duplicated
extraction logic of `log_error` and of the decorator's except branch:
vendor failure list first, then a generic `code` attribute, else the
default `str(e)` with no code. -/
def extractErrorInfo (e : PyErr) : String × Option String :=
  match e.failure_errors with
  | some errs =>
      ("Google Ads API Error: " ++ jsonStr (.vList (errs.map subErrorInfo)),
       (errs.head?).map (fun f => f.error_code_name.getD "UNKNOWN"))
  | none =>
      match e.code with
      | some c => (e.msg, some c)
      | none => (e.msg, none)

/-- `AuditLogger.log_error`: build the detailed error fields and insert
an ERROR entry.  `tb` is the ambient `traceback.format_exc()` text. -/
def log_error (db : AuditDB) (ctx : LogCtx)
    (operation_type resource_type function_name : String)
    (error : PyErr) (tb : String)
    (parameters : Option PyVal) (resource_id : Option String)
    (execution_time_ms : Option Nat) : AuditDB :=
  let info := extractErrorInfo error
  log_operation db ctx operation_type resource_type function_name
    parameters resource_id "ERROR" none
    (some info.1) (some error.type_name) info.2 (some tb) execution_time_ms

/-- A sub-result of a vendor mutate response: `resource_name` is
`some n` when the attribute exists (its value), `none` when
`hasattr(result.results[0], 'resource_name')` is false. -/
structure SubResult where
  resource_name : Option String

/-- The shapes of a wrapped operation's return value that the decorator
probes: a string, an object exposing a `results` list, or anything
else. -/
inductive CallResult where
  | rStr (s : String) : CallResult
  | rResults (subs : List SubResult) : CallResult
  | rOther (v : PyVal) : CallResult

/-- Python `dict.update`: keys of `d` keep their position (values
overwritten by `u` where present), new keys of `u` are appended in
order.  Both arguments have distinct keys, being Python dicts. -/
def dictUpdate (d u : List (String × PyVal)) : List (String × PyVal) :=
  (d.map (fun kv =>
    match u.lookup kv.1 with
    | some v => (kv.1, v)
    | none => kv)) ++
  u.filter (fun kv => (d.lookup kv.1).isNone)

/-- The sensitive-name denylist of the decorator. -/
def sensitiveKeys : List String := ["client", "service", "password", "token"]

/-- The `log_params` dict right after the `if args:` step: empty when
there are no positional arguments, else the single entry
`args_count = len(args)`. -/
def argsBase (args : List PyVal) : List (String × PyVal) :=
  if args.isEmpty then [] else [("args_count", .vInt args.length)]

/-- The sanitized parameter snapshot the decorator builds: positional
arguments contribute only their count under `args_count`, keyword
arguments are added (`log_params.update(filtered_kwargs)`, run only
when `kwargs` is truthy) after dropping the names
`k not in ['client', 'service', 'password', 'token']` keeps out. -/
def buildLogParams (args : List PyVal) (kwargs : List (String × PyVal)) :
    List (String × PyVal) :=
  if kwargs.isEmpty then argsBase args
  else dictUpdate (argsBase args)
    (kwargs.filter (fun kv => decide (kv.1 ∉ sensitiveKeys)))

/-- The resource id the decorator derives from a normal return:
`result.results[0].resource_name` when the result exposes a non-empty
`results` list whose head has the attribute, else the result itself
when it is a string containing a slash, else nothing. -/
def extractResourceId : CallResult → Option String
  | .rResults (sub :: _) => sub.resource_name
  | .rResults [] => none
  | .rStr s => if s.contains '/' then some s else none
  | .rOther _ => none

/-- The `result_data` dict of the SUCCESS entry:
`\x7b"resource_count": len(result.results) if hasattr(result, 'results')
else None\x7d`. -/
def successResultData : CallResult → PyVal
  | .rResults subs => .vDict [("resource_count", .vInt subs.length)]
  | _ => .vDict [("resource_count", .vNone)]

/-- One invocation of a function wrapped by the `audit_log(operation_type,
resource_type)` decorator.  `args`/`kwargs` are the call's arguments,
`outcome` is what `func(*args, **kwargs)` does at this invocation,
`tb` is the traceback text captured on failure and `elapsedMs` the
measured duration.  Returns the updated store and what the wrapper
does: return the original result unchanged, or re-raise the original
exception object (`raise e`). -/
def audit_log_call (db : AuditDB) (ctx : LogCtx)
    (operation_type resource_type function_name : String)
    (args : List PyVal) (kwargs : List (String × PyVal))
    (outcome : Except PyErr CallResult) (tb : String) (elapsedMs : Nat) :
    AuditDB × Except PyErr CallResult :=
  let log_params := buildLogParams args kwargs
  match outcome with
  | .ok result =>
      let db2 := log_operation db ctx operation_type resource_type
        function_name (some (.vDict log_params)) (extractResourceId result)
        "SUCCESS" (some (successResultData result))
        none none none none (some elapsedMs)
      (db2, .ok result)
  | .error e =>
      let info := extractErrorInfo e
      let db2 := log_operation db ctx operation_type resource_type
        function_name (some (.vDict log_params)) none
        "ERROR" none
        (some info.1) (some e.type_name) info.2 (some tb) (some elapsedMs)
      (db2, .error e)

/-! Helper notions and lemmas about the embedded operations. -/

/-- Whether `json.dumps(v) if v else None` runs without raising:
always for an absent or falsy value, and for a truthy value exactly
when it is serializable. -/
def serOK (v : Option PyVal) : Bool :=
  match v with
  | none => true
  | some x => !pyTruthy x || jsonSerializable x

/-- The column text `json.dumps(v) if v else None` stores when it does
not raise: NULL for absent or falsy values, the serialized value
otherwise. -/
def serText (v : Option PyVal) : Option PyVal :=
  match v with
  | none => none
  | some x => if pyTruthy x then some x else none

/-- One full call to `log_operation` with all of its arguments and the
ambient context at the time of the call. -/
structure InsertCall where
  ctx : LogCtx
  operation_type : String
  resource_type : String
  function_name : String
  parameters : Option PyVal
  resource_id : Option String
  result_status : String
  result_data : Option PyVal
  error_message : Option String
  error_type : Option String
  error_code : Option String
  stack_trace : Option String
  execution_time_ms : Option Nat

/-- Perform one recorded call to `log_operation`. -/
def applyCall (db : AuditDB) (c : InsertCall) : AuditDB :=
  log_operation db c.ctx c.operation_type c.resource_type c.function_name
    c.parameters c.resource_id c.result_status c.result_data
    c.error_message c.error_type c.error_code c.stack_trace
    c.execution_time_ms

/-- Perform a sequence of calls to `log_operation` in order. -/
def applyCalls (db : AuditDB) (cs : List InsertCall) : AuditDB :=
  cs.foldl applyCall db

/-- Insertion order on rows: strictly increasing surrogate ids and
non-decreasing store timestamps. -/
def rowLE (a b : AuditRow) : Prop :=
  a.id < b.id ∧ a.timestamp ≤ b.timestamp

/-- A stored `parameters` column holds no entry for key `k`: either the
column is NULL, or the stored dict has no such key.  (A stored
non-dict value has no keys at all.) -/
def paramsOmits (k : String) : Option PyVal → Prop
  | some (.vDict kvs) => kvs.lookup k = none
  | some _ => True
  | none => True

/-- A concrete identity context used to evaluate the model. -/
def ctx0 : LogCtx :=
  { user_id := "u1", customer_id := "123-456", session_id := "s1", now := 100 }

/-- A plain Python exception with message `boom` and no vendor
attributes (no `failure`, no `code`). -/
def errBoom : PyErr :=
  { type_name := "ValueError", msg := "boom", failure_errors := none,
    code := none }

/-- A vendor exception carrying one structured sub-error. -/
def errVendor : PyErr :=
  { type_name := "GoogleAdsException", msg := "fail",
    failure_errors := some
      [{ error_code_name := some "INVALID_ARGUMENT",
         message := some "bad field", str_repr := "bad",
         location := some "campaign.name" }],
    code := none }

/-- A concrete `log_operation` call with no JSON payloads. -/
def call0 : InsertCall :=
  { ctx := ctx0, operation_type := "CREATE", resource_type := "CAMPAIGN",
    function_name := "create_campaign", parameters := none,
    resource_id := none, result_status := "SUCCESS", result_data := none,
    error_message := none, error_type := none, error_code := none,
    stack_trace := none, execution_time_ms := none }

theorem serializeField_eq (v : Option PyVal) :
    serializeField v =
      (if serOK v then .ok (serText v) else .error ()) := by
  cases v with
  | none => rfl
  | some x =>
      simp only [serializeField, serOK, serText]
      cases h : pyTruthy x <;> cases h2 : jsonSerializable x <;> simp

theorem log_operation_rows (db : AuditDB) (ctx : LogCtx)
    (ot rt fn : String) (p : Option PyVal) (rid : Option String)
    (st : String) (rd : Option PyVal)
    (em et ec stk : Option String) (ems : Option Nat) :
    (log_operation db ctx ot rt fn p rid st rd em et ec stk ems).rows =
      (if serOK p && serOK rd then
        db.rows ++ [insertedRow db ctx ot rt fn (serText p) rid st
          (serText rd) em et ec stk ems]
      else db.rows) := by
  unfold log_operation logOperationTry
  rw [serializeField_eq p, serializeField_eq rd]
  cases hp : serOK p <;> cases hr : serOK rd <;>
    simp [Except.bind, Bind.bind]

theorem log_operation_nextId (db : AuditDB) (ctx : LogCtx)
    (ot rt fn : String) (p : Option PyVal) (rid : Option String)
    (st : String) (rd : Option PyVal)
    (em et ec stk : Option String) (ems : Option Nat) :
    (log_operation db ctx ot rt fn p rid st rd em et ec stk ems).nextId =
      (if serOK p && serOK rd then db.nextId + 1 else db.nextId) := by
  unfold log_operation logOperationTry
  rw [serializeField_eq p, serializeField_eq rd]
  cases hp : serOK p <;> cases hr : serOK rd <;>
    simp [Except.bind, Bind.bind]

theorem qLE_total (a b : AuditRow) : qLE a b = true ∨ qLE b a = true := by
  simp only [qLE, Bool.or_eq_true, Bool.and_eq_true, decide_eq_true_eq,
    beq_iff_eq]
  omega

theorem qLE_trans {a b c : AuditRow} (h1 : qLE a b = true)
    (h2 : qLE b c = true) : qLE a c = true := by
  simp only [qLE, Bool.or_eq_true, Bool.and_eq_true, decide_eq_true_eq,
    beq_iff_eq] at h1 h2 ⊢
  omega

theorem mem_insertSorted {a x : AuditRow} {l : List AuditRow} :
    a ∈ insertSorted x l ↔ a = x ∨ a ∈ l := by
  induction l with
  | nil => simp [insertSorted]
  | cons y ys ih =>
      by_cases h : qLE x y = true
      · simp [insertSorted, h]
      · simp only [insertSorted, if_neg h, List.mem_cons, ih]
        tauto

theorem perm_insertSorted (x : AuditRow) (l : List AuditRow) :
    (insertSorted x l).Perm (x :: l) := by
  induction l with
  | nil => exact List.Perm.refl _
  | cons y ys ih =>
      by_cases h : qLE x y = true
      · simp [insertSorted, h]
      · simp only [insertSorted, if_neg h]
        exact (ih.cons y).trans (List.Perm.swap x y ys)

theorem perm_sortRows (l : List AuditRow) : (sortRows l).Perm l := by
  induction l with
  | nil => exact List.Perm.refl _
  | cons x xs ih =>
      exact (perm_insertSorted x (sortRows xs)).trans (ih.cons x)

theorem pairwise_insertSorted {x : AuditRow} {l : List AuditRow}
    (hl : l.Pairwise (fun a b => qLE a b = true)) :
    (insertSorted x l).Pairwise (fun a b => qLE a b = true) := by
  induction l with
  | nil => simp [insertSorted]
  | cons y ys ih =>
      rcases List.pairwise_cons.1 hl with ⟨hy, hys⟩
      by_cases h : qLE x y = true
      · simp only [insertSorted, if_pos h]
        refine List.pairwise_cons.2 ⟨?_, hl⟩
        intro z hz
        rcases List.mem_cons.1 hz with rfl | hz
        · exact h
        · exact qLE_trans h (hy z hz)
      · simp only [insertSorted, if_neg h]
        refine List.pairwise_cons.2 ⟨?_, ih hys⟩
        intro z hz
        rcases mem_insertSorted.1 hz with rfl | hz
        · rcases qLE_total z y with h2 | h2
          · exact absurd h2 h
          · exact h2
        · exact hy z hz

theorem pairwise_sortRows (l : List AuditRow) :
    (sortRows l).Pairwise (fun a b => qLE a b = true) := by
  induction l with
  | nil => simp [sortRows]
  | cons x xs ih => exact pairwise_insertSorted ih

theorem lookup_append (k : String) (l1 l2 : List (String × PyVal)) :
    (l1 ++ l2).lookup k = ((l1.lookup k).or (l2.lookup k)) := by
  induction l1 with
  | nil => simp [List.lookup]
  | cons kv rest ih =>
      by_cases hk : k = kv.1
      · simp [List.lookup, hk]
      · simp only [List.cons_append, List.lookup, beq_eq_false_iff_ne,
          ne_eq, hk, not_false_eq_true, beq_iff_eq, if_neg]
        rw [show (k == kv.1) = false by simp [hk]]
        exact ih

theorem lookup_filter_keyPred (q : String → Bool) (u : List (String × PyVal))
    (k : String) :
    (u.filter (fun kv => q kv.1)).lookup k =
      (if q k then u.lookup k else none) := by
  induction u with
  | nil => simp [List.lookup]
  | cons kv rest ih =>
      obtain ⟨a, b⟩ := kv
      by_cases hk : k = a
      · subst hk
        cases hq : q k <;> simp [List.filter, List.lookup, hq, ih]
      · have hbeq : (k == a) = false := beq_eq_false_iff_ne.2 hk
        cases hq : q a <;> simp [List.filter, List.lookup, hq, hbeq, ih]

theorem lookup_mapReplace (d u : List (String × PyVal)) (k : String) :
    ((d.map (fun kv =>
        match u.lookup kv.1 with
        | some v => (kv.1, v)
        | none => kv)).lookup k) =
      (match d.lookup k with
       | none => none
       | some w =>
           match u.lookup k with
           | some v => some v
           | none => some w) := by
  induction d with
  | nil => simp [List.lookup]
  | cons kv rest ih =>
      obtain ⟨a, b⟩ := kv
      by_cases hk : k = a
      · subst hk
        cases hu : u.lookup k <;> simp [List.lookup, hu]
      · have hbeq : (k == a) = false := beq_eq_false_iff_ne.2 hk
        cases hu : u.lookup a <;> simp [List.lookup, hbeq, hu, ih]

theorem lookup_dictUpdate (d u : List (String × PyVal)) (k : String) :
    (dictUpdate d u).lookup k = ((u.lookup k).or (d.lookup k)) := by
  unfold dictUpdate
  rw [lookup_append, lookup_mapReplace,
    lookup_filter_keyPred (fun x => (d.lookup x).isNone)]
  cases hd : d.lookup k <;> cases hu : u.lookup k <;>
    simp [hd, hu, Option.or]

theorem argsBase_lookup_ne (args : List PyVal) (k : String)
    (hka : (k == "args_count") = false) :
    (argsBase args).lookup k = none := by
  unfold argsBase
  cases h : args.isEmpty <;> simp [List.lookup, hka]

theorem buildLogParams_lookup_sensitive (args : List PyVal)
    (kwargs : List (String × PyVal)) (k : String)
    (hk : k ∈ sensitiveKeys) :
    (buildLogParams args kwargs).lookup k = none := by
  have hka : (k == "args_count") = false := by
    refine beq_eq_false_iff_ne.2 (fun h => ?_)
    rw [h] at hk
    exact absurd hk (by decide)
  have hbase := argsBase_lookup_ne args k hka
  unfold buildLogParams
  cases hkw : kwargs.isEmpty
  · simp only [Bool.false_eq_true, if_false]
    rw [lookup_dictUpdate,
      lookup_filter_keyPred (fun x => decide (x ∉ sensitiveKeys))]
    simp [hk, hbase]
  · simpa using hbase

theorem buildLogParams_lookup_kwarg (args : List PyVal)
    (kwargs : List (String × PyVal)) (k : String) (v : PyVal)
    (hk : k ∉ sensitiveKeys) (hv : kwargs.lookup k = some v) :
    (buildLogParams args kwargs).lookup k = some v := by
  have hne : kwargs.isEmpty = false := by
    cases kwargs with
    | nil => simp [List.lookup] at hv
    | cons a b => rfl
  unfold buildLogParams
  rw [hne]
  simp only [Bool.false_eq_true, if_false]
  rw [lookup_dictUpdate,
    lookup_filter_keyPred (fun x => decide (x ∉ sensitiveKeys))]
  simp [hk, hv]

theorem buildLogParams_args_count (args : List PyVal)
    (kwargs : List (String × PyVal)) (hargs : args ≠ [])
    (hnc : kwargs.lookup "args_count" = none) :
    (buildLogParams args kwargs).lookup "args_count" =
      some (.vInt args.length) := by
  have hbase : (argsBase args).lookup "args_count" =
      some (PyVal.vInt args.length) := by
    unfold argsBase
    cases args with
    | nil => exact absurd rfl hargs
    | cons a as => simp [List.lookup]
  unfold buildLogParams
  cases hkw : kwargs.isEmpty
  · simp only [Bool.false_eq_true, if_false]
    rw [lookup_dictUpdate,
      lookup_filter_keyPred (fun x => decide (x ∉ sensitiveKeys))]
    simp [hnc, hbase]
  · simpa using hbase

theorem buildLogParams_args_values_irrelevant (args args2 : List PyVal)
    (kwargs : List (String × PyVal)) (h : args.length = args2.length) :
    buildLogParams args kwargs = buildLogParams args2 kwargs := by
  have hbase : argsBase args = argsBase args2 := by
    unfold argsBase
    cases args <;> cases args2 <;> simp_all
  unfold buildLogParams
  rw [hbase]

theorem applyCall_cases (db : AuditDB) (c : InsertCall) :
    ((applyCall db c).rows = db.rows ∧ (applyCall db c).nextId = db.nextId) ∨
    (∃ r, (applyCall db c).rows = db.rows ++ [r] ∧
      (applyCall db c).nextId = db.nextId + 1 ∧
      r.id = db.nextId ∧ r.timestamp = c.ctx.now) := by
  have hrows := log_operation_rows db c.ctx c.operation_type
    c.resource_type c.function_name c.parameters c.resource_id
    c.result_status c.result_data c.error_message c.error_type
    c.error_code c.stack_trace c.execution_time_ms
  have hnext := log_operation_nextId db c.ctx c.operation_type
    c.resource_type c.function_name c.parameters c.resource_id
    c.result_status c.result_data c.error_message c.error_type
    c.error_code c.stack_trace c.execution_time_ms
  cases hser : (serOK c.parameters && serOK c.result_data) with
  | false =>
      rw [hser] at hrows hnext
      simp only [Bool.false_eq_true, if_false] at hrows hnext
      exact Or.inl ⟨hrows, hnext⟩
  | true =>
      rw [hser] at hrows hnext
      simp only [if_true] at hrows hnext
      exact Or.inr ⟨_, hrows, hnext, rfl, rfl⟩

theorem applyCalls_inv (cs : List InsertCall) (db : AuditDB)
    (hbound : ∀ r ∈ db.rows, r.id < db.nextId)
    (hmono : db.rows.Pairwise rowLE)
    (hfuture : ∀ r ∈ db.rows, ∀ c ∈ cs, r.timestamp ≤ c.ctx.now)
    (hcs : cs.Pairwise (fun a b => a.ctx.now ≤ b.ctx.now)) :
    (∀ r ∈ (applyCalls db cs).rows, r.id < (applyCalls db cs).nextId) ∧
      (applyCalls db cs).rows.Pairwise rowLE := by
  induction cs generalizing db with
  | nil => exact ⟨hbound, hmono⟩
  | cons c cs ih =>
      rcases List.pairwise_cons.1 hcs with ⟨hc, hcs2⟩
      show (∀ r ∈ (applyCalls (applyCall db c) cs).rows, _) ∧ _
      rcases applyCall_cases db c with ⟨hr, hn⟩ | ⟨x, hr, hn, hid, hts⟩
      · refine ih (applyCall db c) ?_ ?_ ?_ hcs2
        · intro r hmem; rw [hr] at hmem; rw [hn]; exact hbound r hmem
        · rw [hr]; exact hmono
        · intro r hmem c2 hc2
          rw [hr] at hmem
          exact hfuture r hmem c2 (List.mem_cons_of_mem c hc2)
      · refine ih (applyCall db c) ?_ ?_ ?_ hcs2
        · intro r hmem
          rw [hr] at hmem; rw [hn]
          rcases List.mem_append.1 hmem with hmem | hmem
          · exact Nat.lt_succ_of_lt (hbound r hmem)
          · rcases List.mem_singleton.1 hmem with rfl
            rw [hid]; exact Nat.lt_succ_self _
        · rw [hr]
          refine List.pairwise_append.2 ⟨hmono, List.pairwise_singleton _ _, ?_⟩
          intro a ha b hb
          rcases List.mem_singleton.1 hb with rfl
          refine ⟨?_, ?_⟩
          · rw [hid]; exact hbound a ha
          · rw [hts]; exact hfuture a ha c (List.mem_cons_self c cs)
        · intro r hmem c2 hc2
          rw [hr] at hmem
          rcases List.mem_append.1 hmem with hmem | hmem
          · exact hfuture r hmem c2 (List.mem_cons_of_mem c hc2)
          · rcases List.mem_singleton.1 hmem with rfl
            rw [hts]; exact hc c2 hc2

theorem applyCalls_emptyDB_inv (cs : List InsertCall)
    (hcs : cs.Pairwise (fun a b => a.ctx.now ≤ b.ctx.now)) :
    (∀ r ∈ (applyCalls emptyDB cs).rows,
      r.id < (applyCalls emptyDB cs).nextId) ∧
      (applyCalls emptyDB cs).rows.Pairwise rowLE := by
  refine applyCalls_inv cs emptyDB ?_ ?_ ?_ hcs
  · intro r hr; cases hr
  · exact List.Pairwise.nil
  · intro r hr; cases hr

theorem rowMatches_noFilters (r : AuditRow) : rowMatches noFilters r = true := rfl

theorem get_audit_logs_noFilters (db : AuditDB) (limit : Nat)
    (hlim : db.rows.length ≤ limit) :
    get_audit_logs db noFilters limit = sortRows db.rows := by
  unfold get_audit_logs
  rw [List.filter_eq_self.2 (fun r _ => rowMatches_noFilters r)]
  refine List.take_of_length_le ?_
  rw [(perm_sortRows db.rows).length_eq]
  exact hlim

theorem sortRows_head_eq_getLast (l : List AuditRow)
    (hmono : l.Pairwise rowLE) : (sortRows l).head? = l.getLast? := by
  have hperm := perm_sortRows l
  have hpw := pairwise_sortRows l
  cases hs : sortRows l with
  | nil =>
      rw [hs] at hperm
      rw [List.getLast?_eq_none_iff.2 hperm.symm.eq_nil]
      rfl
  | cons h0 t =>
      have hlne : l ≠ [] := by
        intro h
        subst h
        simp [sortRows] at hs
      rw [List.getLast?_eq_getLast l hlne]
      have hdec := List.dropLast_append_getLast hlne
      set L := l.getLast hlne with hL
      have hmemh0 : h0 ∈ l := hperm.mem_iff.1 (by rw [hs]; exact List.mem_cons_self h0 t)
      by_cases heq : h0 = L
      · rw [heq]; rfl
      · exfalso
        have hLmem : L ∈ sortRows l := hperm.mem_iff.2 (List.getLast_mem hlne)
        rw [hs] at hLmem
        rcases List.mem_cons.1 hLmem with h | hLt
        · exact heq h.symm
        · have hq : qLE h0 L = true := by
            rw [hs] at hpw
            exact List.rel_of_pairwise_cons hpw hLt
          have hr : rowLE h0 L := by
            have hmem2 : h0 ∈ l.dropLast ++ [L] := by rw [hdec]; exact hmemh0
            rcases List.mem_append.1 hmem2 with hmem2 | hmem2
            · have := List.pairwise_append.1 (by rw [hdec]; exact hmono)
              exact this.2.2 h0 hmem2 L (List.mem_singleton_self L)
            · exact absurd (List.mem_singleton.1 hmem2) heq
          rcases hr with ⟨hid, hts⟩
          simp only [qLE, Bool.or_eq_true, Bool.and_eq_true,
            decide_eq_true_eq, beq_iff_eq] at hq
          omega

theorem serOK_successResultData (result : CallResult) :
    serOK (some (successResultData result)) = true := by
  cases result <;> rfl

theorem serText_successResultData (result : CallResult) :
    serText (some (successResultData result)) =
      some (successResultData result) := by
  cases result <;> rfl

theorem mem_get_audit_logs (db : AuditDB) (f : QueryFilters) (limit : Nat)
    (r : AuditRow) (hr : r ∈ db.rows) (hm : rowMatches f r = true)
    (hlim : db.rows.length ≤ limit) : r ∈ get_audit_logs db f limit := by
  unfold get_audit_logs
  have h1 : r ∈ db.rows.filter (rowMatches f) := List.mem_filter.2 ⟨hr, hm⟩
  have h2 : r ∈ sortRows (db.rows.filter (rowMatches f)) :=
    (perm_sortRows _).mem_iff.2 h1
  have hlen : (sortRows (db.rows.filter (rowMatches f))).length ≤ limit := by
    rw [(perm_sortRows _).length_eq]
    exact le_trans (List.length_filter_le _ _) hlim
  rw [List.take_of_length_le hlen]
  exact h2

theorem audit_log_call_rows_split (db : AuditDB) (ctx : LogCtx)
    (ot rt fn : String) (args : List PyVal)
    (kwargs : List (String × PyVal)) (outcome : Except PyErr CallResult)
    (tb : String) (ems : Nat) :
    (audit_log_call db ctx ot rt fn args kwargs outcome tb ems).1.rows =
        db.rows ∨
    ∃ r, (audit_log_call db ctx ot rt fn args kwargs outcome tb ems).1.rows =
        db.rows ++ [r] ∧
      r.parameters = serText (some (.vDict (buildLogParams args kwargs))) ∧
      ((∃ result, outcome = .ok result ∧
          r.result_status = some "SUCCESS" ∧
          r.resource_id = extractResourceId result ∧
          r.result_data = some (successResultData result) ∧
          r.error_message = none ∧ r.error_type = none ∧
          r.error_code = none ∧ r.stack_trace = none) ∨
       (∃ e, outcome = .error e ∧
          r.result_status = some "ERROR" ∧ r.resource_id = none ∧
          r.result_data = none ∧
          r.error_message = some (extractErrorInfo e).1 ∧
          r.error_type = some e.type_name ∧
          r.error_code = (extractErrorInfo e).2 ∧
          r.stack_trace = some tb)) := by
  cases outcome with
  | ok result =>
      have hrows := log_operation_rows db ctx ot rt fn
        (some (.vDict (buildLogParams args kwargs)))
        (extractResourceId result) "SUCCESS"
        (some (successResultData result)) none none none none (some ems)
      rw [serOK_successResultData result] at hrows
      cases hser : serOK (some (.vDict (buildLogParams args kwargs))) with
      | false =>
          rw [hser] at hrows
          simp only [Bool.false_and, Bool.false_eq_true, if_false] at hrows
          exact Or.inl hrows
      | true =>
          rw [hser] at hrows
          simp only [Bool.true_and, if_true] at hrows
          refine Or.inr ⟨_, hrows, rfl, Or.inl ⟨result, rfl, rfl, rfl, ?_, rfl,
            rfl, rfl, rfl⟩⟩
          rw [serText_successResultData result]
          rfl
  | error e =>
      have hrows := log_operation_rows db ctx ot rt fn
        (some (.vDict (buildLogParams args kwargs)))
        none "ERROR" none
        (some (extractErrorInfo e).1) (some e.type_name)
        (extractErrorInfo e).2 (some tb) (some ems)
      cases hser : serOK (some (.vDict (buildLogParams args kwargs))) with
      | false =>
          rw [hser] at hrows
          simp only [Bool.false_and, Bool.false_eq_true, if_false] at hrows
          exact Or.inl hrows
      | true =>
          rw [hser] at hrows
          simp only [Bool.true_and, serOK, if_true] at hrows
          exact Or.inr ⟨_, hrows, rfl, Or.inr ⟨e, rfl, rfl, rfl, rfl, rfl,
            rfl, rfl, rfl⟩⟩

/-! Claim theorems. -/

/-- C1, counterexample: invoking a wrapped operation with a keyword
argument whose value is not serializable (for example a campaign
object) while the callable raises `ValueError("boom")` re-raises the
exception, but persists NO entry at all: `json.dumps(log_params)`
raises inside `log_operation`, the blanket `except` swallows it, and
the insert never happens.  This refutes "exactly one entry with
result_status = ERROR is persisted". -/
theorem c1_counterexample :
    (audit_log_call emptyDB ctx0 "CREATE" "CAMPAIGN" "create_campaign"
      [] [("campaign", PyVal.vOpaque "campaign_obj")]
      (Except.error errBoom) "traceback" 5).2 = Except.error errBoom ∧
    (audit_log_call emptyDB ctx0 "CREATE" "CAMPAIGN" "create_campaign"
      [] [("campaign", PyVal.vOpaque "campaign_obj")]
      (Except.error errBoom) "traceback" 5).1.rows = [] :=
  ⟨rfl, rfl⟩

/-- C1 (amended): when the callable raises, the wrapper always
re-raises the very same exception (same type, same message), and —
provided the sanitized parameter snapshot is JSON-serializable —
exactly one new entry is persisted, with `result_status = "ERROR"`. -/
theorem c1_error_reraised_and_logged (db : AuditDB) (ctx : LogCtx)
    (ot rt fn : String) (args : List PyVal)
    (kwargs : List (String × PyVal)) (e : PyErr) (tb : String) (ems : Nat)
    (hser : serOK (some (.vDict (buildLogParams args kwargs))) = true) :
    (audit_log_call db ctx ot rt fn args kwargs (.error e) tb ems).2 =
      .error e ∧
    ∃ r, (audit_log_call db ctx ot rt fn args kwargs (.error e) tb
        ems).1.rows = db.rows ++ [r] ∧
      r.result_status = some "ERROR" := by
  refine ⟨rfl, ?_⟩
  have hrows := log_operation_rows db ctx ot rt fn
    (some (.vDict (buildLogParams args kwargs))) none "ERROR" none
    (some (extractErrorInfo e).1) (some e.type_name)
    (extractErrorInfo e).2 (some tb) (some ems)
  rw [hser] at hrows
  simp only [Bool.true_and, serOK, if_true] at hrows
  exact ⟨_, hrows, rfl⟩

/-- C1 witness: a raising operation invoked with no arguments
re-raises `ValueError("boom")` and appends exactly one ERROR entry. -/
theorem c1_witness :
    (audit_log_call emptyDB ctx0 "CREATE" "CAMPAIGN" "create_campaign"
      [] [] (.error errBoom) "traceback" 5).2 = .error errBoom ∧
    ∃ r, (audit_log_call emptyDB ctx0 "CREATE" "CAMPAIGN"
        "create_campaign" [] [] (.error errBoom) "traceback" 5).1.rows =
      emptyDB.rows ++ [r] ∧ r.result_status = some "ERROR" :=
  c1_error_reraised_and_logged emptyDB ctx0 "CREATE" "CAMPAIGN"
    "create_campaign" [] [] errBoom "traceback" 5 rfl

/-- C2, counterexample: `log_operation` called with a parameters dict
containing a non-serializable value leaves the store exactly as it
was — the entry is dropped whole, not persisted in any partial or
string form.  (No exception reaches the caller, which is the half of
the claim that does hold.) -/
theorem c2_counterexample :
    log_operation emptyDB ctx0 "CREATE" "CAMPAIGN" "create_campaign"
      (some (.vDict [("service", PyVal.vOpaque "service_handle")]))
      none "SUCCESS" none none none none none none = emptyDB :=
  rfl

/-- C2 (amended): `log_operation` never raises past its caller — the
body raises inside the `try` exactly when a truthy `parameters` or
`result_data` value is not serializable, the `except` swallows it and
the store is left unchanged; when both values serialize, the entry is
persisted. -/
theorem c2_insert_never_raises (db : AuditDB) (ctx : LogCtx)
    (ot rt fn : String) (p : Option PyVal) (rid : Option String)
    (st : String) (rd : Option PyVal)
    (em et ec stk : Option String) (ems : Option Nat) :
    ((serOK p && serOK rd) = true →
      (log_operation db ctx ot rt fn p rid st rd em et ec stk ems).rows =
        db.rows ++ [insertedRow db ctx ot rt fn (serText p) rid st
          (serText rd) em et ec stk ems]) ∧
    ((serOK p && serOK rd) = false →
      (log_operation db ctx ot rt fn p rid st rd em et ec stk ems).rows =
        db.rows) ∧
    ((logOperationTry db ctx ot rt fn p rid st rd em et ec stk ems =
        .error ()) ↔ (serOK p && serOK rd) = false) := by
  have hrows := log_operation_rows db ctx ot rt fn p rid st rd em et ec
    stk ems
  refine ⟨fun h => by rw [h] at hrows; simpa using hrows,
    fun h => by rw [h] at hrows; simpa using hrows, ?_⟩
  unfold logOperationTry
  rw [serializeField_eq p, serializeField_eq rd]
  cases hp : serOK p <;> cases hr : serOK rd <;>
    simp [Except.bind, Bind.bind]

/-- C2 witness: with a non-serializable parameters value the insert is
dropped (store unchanged) and the `try` body is the thing that raised;
the caller sees no exception. -/
theorem c2_witness :
    (log_operation emptyDB ctx0 "CREATE" "CAMPAIGN" "create_campaign"
      (some (.vDict [("service", PyVal.vOpaque "service_handle")]))
      none "SUCCESS" none none none none none none).rows =
      emptyDB.rows ∧
    logOperationTry emptyDB ctx0 "CREATE" "CAMPAIGN" "create_campaign"
      (some (.vDict [("service", PyVal.vOpaque "service_handle")]))
      none "SUCCESS" none none none none none none = .error () :=
  ⟨(c2_insert_never_raises emptyDB ctx0 "CREATE" "CAMPAIGN"
      "create_campaign"
      (some (.vDict [("service", PyVal.vOpaque "service_handle")]))
      none "SUCCESS" none none none none none none).2.1 rfl,
   (c2_insert_never_raises emptyDB ctx0 "CREATE" "CAMPAIGN"
      "create_campaign"
      (some (.vDict [("service", PyVal.vOpaque "service_handle")]))
      none "SUCCESS" none none none none none none).2.2.2 rfl⟩

/-- C3: any entry the interceptor adds to the store carries a
parameters snapshot with no entry for any denylisted name (`client`,
`service`, `password`, `token`): the key and its value are absent. -/
theorem c3_sensitive_redaction (db : AuditDB) (ctx : LogCtx)
    (ot rt fn : String) (args : List PyVal)
    (kwargs : List (String × PyVal)) (outcome : Except PyErr CallResult)
    (tb : String) (ems : Nat) :
    (audit_log_call db ctx ot rt fn args kwargs outcome tb ems).1.rows =
        db.rows ∨
    ∃ r, (audit_log_call db ctx ot rt fn args kwargs outcome tb
        ems).1.rows = db.rows ++ [r] ∧
      ∀ k ∈ sensitiveKeys, paramsOmits k r.parameters := by
  rcases audit_log_call_rows_split db ctx ot rt fn args kwargs outcome tb
    ems with h | ⟨r, hrows, hp, _⟩
  · exact Or.inl h
  · refine Or.inr ⟨r, hrows, ?_⟩
    intro k hk
    rw [hp]
    simp only [serText]
    by_cases ht : pyTruthy (.vDict (buildLogParams args kwargs)) = true
    · rw [if_pos ht]
      exact buildLogParams_lookup_sensitive args kwargs k hk
    · rw [if_neg ht]
      trivial

/-- C3 witness: a call passing `password`, `token`, `client`, `service`
and one innocuous keyword argument stores an entry whose parameters
omit all four sensitive names. -/
theorem c3_witness :
    (audit_log_call emptyDB ctx0 "CREATE" "CAMPAIGN" "create_campaign"
      [] [("password", PyVal.vStr "hunter2"), ("token", PyVal.vStr "t0"),
          ("client", PyVal.vOpaque "client_obj"),
          ("service", PyVal.vOpaque "service_obj"),
          ("campaign_name", PyVal.vStr "Summer Sale")]
      (.ok (.rStr "customers/1/campaigns/2")) "tb" 7).1.rows =
        emptyDB.rows ∨
    ∃ r, (audit_log_call emptyDB ctx0 "CREATE" "CAMPAIGN"
        "create_campaign"
      [] [("password", PyVal.vStr "hunter2"), ("token", PyVal.vStr "t0"),
          ("client", PyVal.vOpaque "client_obj"),
          ("service", PyVal.vOpaque "service_obj"),
          ("campaign_name", PyVal.vStr "Summer Sale")]
      (.ok (.rStr "customers/1/campaigns/2")) "tb" 7).1.rows =
        emptyDB.rows ++ [r] ∧
      ∀ k ∈ sensitiveKeys, paramsOmits k r.parameters :=
  c3_sensitive_redaction emptyDB ctx0 "CREATE" "CAMPAIGN"
    "create_campaign"
    [] [("password", PyVal.vStr "hunter2"), ("token", PyVal.vStr "t0"),
        ("client", PyVal.vOpaque "client_obj"),
        ("service", PyVal.vOpaque "service_obj"),
        ("campaign_name", PyVal.vStr "Summer Sale")]
    (.ok (.rStr "customers/1/campaigns/2")) "tb" 7

/-- C4: after any sequence of inserts performed with a non-decreasing
clock, an unfiltered query whose limit covers the whole table returns
every stored entry, in non-increasing timestamp order with equal
timestamps broken by strictly descending surrogate id, and the most
recently inserted entry first. -/
theorem c4_query_ordering (cs : List InsertCall) (limit : Nat)
    (hmono : cs.Pairwise (fun a b => a.ctx.now ≤ b.ctx.now))
    (hlim : (applyCalls emptyDB cs).rows.length ≤ limit) :
    (get_audit_logs (applyCalls emptyDB cs) noFilters limit).Perm
        (applyCalls emptyDB cs).rows ∧
    (get_audit_logs (applyCalls emptyDB cs) noFilters limit).Pairwise
      (fun a b => b.timestamp ≤ a.timestamp ∧
        (a.timestamp = b.timestamp → b.id < a.id)) ∧
    (get_audit_logs (applyCalls emptyDB cs) noFilters limit).head? =
      (applyCalls emptyDB cs).rows.getLast? := by
  obtain ⟨hbound, hrowsmono⟩ := applyCalls_emptyDB_inv cs hmono
  rw [get_audit_logs_noFilters (applyCalls emptyDB cs) limit hlim]
  refine ⟨perm_sortRows _, ?_, sortRows_head_eq_getLast _ hrowsmono⟩
  have h1 := pairwise_sortRows (applyCalls emptyDB cs).rows
  have hne : (applyCalls emptyDB cs).rows.Pairwise
      (fun a b => a.id ≠ b.id) :=
    hrowsmono.imp (fun h => Nat.ne_of_lt h.1)
  have hne2 : (sortRows (applyCalls emptyDB cs).rows).Pairwise
      (fun a b => a.id ≠ b.id) :=
    ((perm_sortRows _).pairwise_iff
      (fun h heq => h heq.symm)).2 hne
  refine (h1.and hne2).imp ?_
  rintro a b ⟨hq, hab⟩
  simp only [qLE, Bool.or_eq_true, Bool.and_eq_true, decide_eq_true_eq,
    beq_iff_eq] at hq
  exact ⟨by omega, fun hts => by omega⟩

/-- C4 witness: two inserts stamped with the same clock second. -/
theorem c4_witness :
    (get_audit_logs (applyCalls emptyDB [call0, call0]) noFilters
        10).Perm (applyCalls emptyDB [call0, call0]).rows ∧
    (get_audit_logs (applyCalls emptyDB [call0, call0]) noFilters
        10).Pairwise
      (fun a b => b.timestamp ≤ a.timestamp ∧
        (a.timestamp = b.timestamp → b.id < a.id)) ∧
    (get_audit_logs (applyCalls emptyDB [call0, call0]) noFilters
        10).head? = (applyCalls emptyDB [call0, call0]).rows.getLast? :=
  c4_query_ordering [call0, call0] 10
    (List.Pairwise.cons
      (fun b hb => by rcases List.mem_singleton.1 hb with rfl; exact le_refl _)
      (List.pairwise_singleton _ _))
    (by decide)

/-- C5, counterexample: inserting an entry whose `parameters` is the
empty dict stores NULL, and the query returns exactly one entry whose
`parameters` is absent — not structurally equal to the supplied
empty dict. -/
theorem c5_counterexample :
    (get_audit_logs
      (log_operation emptyDB ctx0 "CREATE" "CAMPAIGN" "create_campaign"
        (some (.vDict [])) none "SUCCESS" none none none none none none)
      noFilters 10).map (fun r => r.parameters) = [none] :=
  rfl

/-- C5 (amended): for an inserted entry whose `parameters` and
`result_data` are each either absent or truthy serializable values, a
query whose filters match the entry and whose limit covers the table
returns an entry with identical identity, operation, resource and
status fields and with `parameters`/`result_data` structurally equal
to the inserted values. -/
theorem c5_roundtrip (db : AuditDB) (ctx : LogCtx) (ot rt fn : String)
    (p : Option PyVal) (rid : Option String) (st : String)
    (rd : Option PyVal) (em et ec stk : Option String) (ems : Option Nat)
    (f : QueryFilters) (limit : Nat)
    (hp : serOK p = true ∧ serText p = p)
    (hrd : serOK rd = true ∧ serText rd = rd)
    (hmatch : rowMatches f (insertedRow db ctx ot rt fn (serText p) rid
      st (serText rd) em et ec stk ems) = true)
    (hlim : db.rows.length + 1 ≤ limit) :
    ∃ r ∈ get_audit_logs
        (log_operation db ctx ot rt fn p rid st rd em et ec stk ems)
        f limit,
      r.user_id = ctx.user_id ∧ r.customer_id = ctx.customer_id ∧
      r.operation_type = ot ∧ r.resource_type = rt ∧
      r.resource_id = rid ∧ r.result_status = some st ∧
      r.parameters = p ∧ r.result_data = rd := by
  have hrows := log_operation_rows db ctx ot rt fn p rid st rd em et ec
    stk ems
  rw [hp.1, hrd.1] at hrows
  simp only [Bool.true_and, if_true] at hrows
  refine ⟨insertedRow db ctx ot rt fn (serText p) rid st (serText rd)
    em et ec stk ems, ?_, rfl, rfl, rfl, rfl, rfl, rfl, hp.2, hrd.2⟩
  refine mem_get_audit_logs _ f limit _ ?_ hmatch ?_
  · rw [hrows]
    exact List.mem_append_right _ (List.mem_singleton_self _)
  · rw [hrows, List.length_append]
    simpa using hlim

/-- C5 witness: a nonempty serializable parameters dict round-trips
through insert and unfiltered query. -/
theorem c5_witness :
    ∃ r ∈ get_audit_logs
        (log_operation emptyDB ctx0 "CREATE" "CAMPAIGN" "create_campaign"
          (some (.vDict [("campaign_name", PyVal.vStr "Summer Sale")]))
          (some "customers/1/campaigns/2") "SUCCESS" none
          none none none none (some 12))
        noFilters 10,
      r.user_id = ctx0.user_id ∧ r.customer_id = ctx0.customer_id ∧
      r.operation_type = "CREATE" ∧ r.resource_type = "CAMPAIGN" ∧
      r.resource_id = some "customers/1/campaigns/2" ∧
      r.result_status = some "SUCCESS" ∧
      r.parameters =
        some (.vDict [("campaign_name", PyVal.vStr "Summer Sale")]) ∧
      r.result_data = none :=
  c5_roundtrip emptyDB ctx0 "CREATE" "CAMPAIGN" "create_campaign"
    (some (.vDict [("campaign_name", PyVal.vStr "Summer Sale")]))
    (some "customers/1/campaigns/2") "SUCCESS" none
    none none none none (some 12) noFilters 10
    ⟨rfl, rfl⟩ ⟨rfl, rfl⟩ rfl (by decide)

/-- C6: `log_error` appends one ERROR entry whose error fields follow
the three-branch decomposition: a vendor failure list yields a joined
structured message and the first sub-error code; otherwise a generic
`code` attribute is stringified into `error_code`; otherwise
`error_code` is absent and the message is `str(error)`. -/
theorem c6_error_decomposition (db : AuditDB) (ctx : LogCtx)
    (ot rt fn : String) (e : PyErr) (tb : String) (p : Option PyVal)
    (rid : Option String) (ems : Option Nat)
    (hp : serOK p = true) :
    ∃ r, (log_error db ctx ot rt fn e tb p rid ems).rows =
        db.rows ++ [r] ∧
      r.result_status = some "ERROR" ∧
      r.error_type = some e.type_name ∧ r.stack_trace = some tb ∧
      (∀ errs, e.failure_errors = some errs →
        r.error_message = some ("Google Ads API Error: " ++
          jsonStr (.vList (errs.map subErrorInfo))) ∧
        r.error_code =
          (errs.head?).map (fun f2 => f2.error_code_name.getD "UNKNOWN")) ∧
      (e.failure_errors = none → ∀ c, e.code = some c →
        r.error_code = some c ∧ r.error_message = some e.msg) ∧
      (e.failure_errors = none → e.code = none →
        r.error_code = none ∧ r.error_message = some e.msg) := by
  unfold log_error
  have hrows := log_operation_rows db ctx ot rt fn p rid "ERROR" none
    (some (extractErrorInfo e).1) (some e.type_name)
    (extractErrorInfo e).2 (some tb) ems
  rw [hp] at hrows
  simp only [Bool.true_and, serOK, if_true] at hrows
  refine ⟨_, hrows, rfl, rfl, rfl, ?_, ?_, ?_⟩
  · intro errs herrs
    show some (extractErrorInfo e).1 = _ ∧
      (extractErrorInfo e).2 = _
    unfold extractErrorInfo
    rw [herrs]
    exact ⟨rfl, rfl⟩
  · intro hnone c hc
    show (extractErrorInfo e).2 = some c ∧
      some (extractErrorInfo e).1 = some e.msg
    unfold extractErrorInfo
    rw [hnone, hc]
    exact ⟨rfl, rfl⟩
  · intro hnone hcnone
    show (extractErrorInfo e).2 = none ∧
      some (extractErrorInfo e).1 = some e.msg
    unfold extractErrorInfo
    rw [hnone, hcnone]
    exact ⟨rfl, rfl⟩

/-- C6 witness: a vendor exception with one structured sub-error is
stored with the joined message and its first sub-error code. -/
theorem c6_witness :
    ∃ r, (log_error emptyDB ctx0 "CREATE" "CAMPAIGN" "create_campaign"
        errVendor "tb" none none (some 9)).rows =
        emptyDB.rows ++ [r] ∧
      r.result_status = some "ERROR" ∧
      r.error_type = some errVendor.type_name ∧
      r.stack_trace = some "tb" ∧
      (∀ errs, errVendor.failure_errors = some errs →
        r.error_message = some ("Google Ads API Error: " ++
          jsonStr (.vList (errs.map subErrorInfo))) ∧
        r.error_code =
          (errs.head?).map (fun f2 => f2.error_code_name.getD "UNKNOWN")) ∧
      (errVendor.failure_errors = none → ∀ c, errVendor.code = some c →
        r.error_code = some c ∧ r.error_message = some errVendor.msg) ∧
      (errVendor.failure_errors = none → errVendor.code = none →
        r.error_code = none ∧ r.error_message = some errVendor.msg) :=
  c6_error_decomposition emptyDB ctx0 "CREATE" "CAMPAIGN"
    "create_campaign" errVendor "tb" none none (some 9) rfl

/-- C7: when the wrapped operation returns normally, the wrapper hands
the original result back unchanged and — provided the sanitized
parameters serialize — appends one SUCCESS entry whose resource id is
the returned string when it contains a slash, or the first
sub-result's `resource_name` when the result exposes a non-empty
result list whose head carries one. -/
theorem c7_success_resource_extraction (db : AuditDB) (ctx : LogCtx)
    (ot rt fn : String) (args : List PyVal)
    (kwargs : List (String × PyVal)) (result : CallResult) (tb : String)
    (ems : Nat)
    (hser : serOK (some (.vDict (buildLogParams args kwargs))) = true) :
    (audit_log_call db ctx ot rt fn args kwargs (.ok result) tb ems).2 =
      .ok result ∧
    ∃ r, (audit_log_call db ctx ot rt fn args kwargs (.ok result) tb
        ems).1.rows = db.rows ++ [r] ∧
      r.resource_id = extractResourceId result ∧
      (∀ s, result = .rStr s → s.contains '/' = true →
        r.resource_id = some s) ∧
      (∀ sub subs, result = .rResults (sub :: subs) →
        ∀ n, sub.resource_name = some n → r.resource_id = some n) := by
  refine ⟨rfl, ?_⟩
  have hrows := log_operation_rows db ctx ot rt fn
    (some (.vDict (buildLogParams args kwargs)))
    (extractResourceId result) "SUCCESS"
    (some (successResultData result)) none none none none (some ems)
  rw [hser, serOK_successResultData result] at hrows
  simp only [Bool.true_and, if_true] at hrows
  refine ⟨_, hrows, rfl, ?_, ?_⟩
  · intro s hres hslash
    show extractResourceId result = some s
    rw [hres]
    simp [extractResourceId, hslash]
  · intro sub subs hres n hname
    show extractResourceId result = some n
    rw [hres]
    simp [extractResourceId, hname]

/-- C7 witness: an operation returning the resource path
`customers/1/campaigns/2` records exactly that string as resource id
and returns it unchanged. -/
theorem c7_witness :
    (audit_log_call emptyDB ctx0 "CREATE" "CAMPAIGN" "create_campaign"
      [] [] (.ok (.rStr "customers/1/campaigns/2")) "tb" 4).2 =
      .ok (.rStr "customers/1/campaigns/2") ∧
    ∃ r, (audit_log_call emptyDB ctx0 "CREATE" "CAMPAIGN"
        "create_campaign" [] []
        (.ok (.rStr "customers/1/campaigns/2")) "tb" 4).1.rows =
        emptyDB.rows ++ [r] ∧
      r.resource_id =
        extractResourceId (.rStr "customers/1/campaigns/2") ∧
      (∀ s, CallResult.rStr "customers/1/campaigns/2" = .rStr s →
        s.contains '/' = true → r.resource_id = some s) ∧
      (∀ sub subs, CallResult.rStr "customers/1/campaigns/2" =
          .rResults (sub :: subs) →
        ∀ n, sub.resource_name = some n → r.resource_id = some n) :=
  c7_success_resource_extraction emptyDB ctx0 "CREATE" "CAMPAIGN"
    "create_campaign" [] [] (.rStr "customers/1/campaigns/2") "tb" 4 rfl

/-- C8, counterexample: a wrapped operation failing with a plain
`ValueError` (no vendor failure list, no `code` attribute) stores an
entry with `result_status = "ERROR"` whose `error_code` is absent —
so the error-only fields are not all populated when the status is
ERROR, refuting the "if and only if" as stated. -/
theorem c8_counterexample :
    (audit_log_call emptyDB ctx0 "CREATE" "CAMPAIGN" "create_campaign"
      [] [] (.error errBoom) "tb" 5).1.rows.map
        (fun r => (r.result_status, r.error_code)) =
      [(some "ERROR", none)] :=
  rfl

/-- C8 (amended): every entry the interceptor creates has exactly one
status, SUCCESS or ERROR; `error_message`, `error_type` and
`stack_trace` are populated iff the status is ERROR, `error_code` is
populated only on ERROR (and only when extractable from the error),
and `result_data` is present iff the status is SUCCESS. -/
theorem c8_status_field_invariant (db : AuditDB) (ctx : LogCtx)
    (ot rt fn : String) (args : List PyVal)
    (kwargs : List (String × PyVal)) (outcome : Except PyErr CallResult)
    (tb : String) (ems : Nat) :
    (audit_log_call db ctx ot rt fn args kwargs outcome tb ems).1.rows =
        db.rows ∨
    ∃ r, (audit_log_call db ctx ot rt fn args kwargs outcome tb
        ems).1.rows = db.rows ++ [r] ∧
      (r.result_status = some "SUCCESS" ∨ r.result_status = some "ERROR") ∧
      (r.result_status = some "SUCCESS" →
        r.error_message = none ∧ r.error_type = none ∧
        r.error_code = none ∧ r.stack_trace = none ∧
        r.result_data.isSome = true) ∧
      (r.result_status = some "ERROR" →
        r.error_message.isSome = true ∧ r.error_type.isSome = true ∧
        r.stack_trace.isSome = true ∧ r.result_data = none) ∧
      (r.error_code.isSome = true → r.result_status = some "ERROR") := by
  rcases audit_log_call_rows_split db ctx ot rt fn args kwargs outcome tb
    ems with h | ⟨r, hrows, _, hcase⟩
  · exact Or.inl h
  · refine Or.inr ⟨r, hrows, ?_⟩
    rcases hcase with ⟨result, _, hst, _, hrd, hem, het, hec, hstk⟩ |
      ⟨e, _, hst, _, hrd, hem, het, hec, hstk⟩
    · refine ⟨Or.inl hst, ?_, ?_, ?_⟩
      · intro _
        exact ⟨hem, het, hec, hstk, by rw [hrd]; rfl⟩
      · intro hcontra
        rw [hst] at hcontra
        exact absurd (Option.some.inj hcontra) (by decide)
      · intro hcode
        rw [hec] at hcode
        cases hcode
    · refine ⟨Or.inr hst, ?_, ?_, ?_⟩
      · intro hcontra
        rw [hst] at hcontra
        exact absurd (Option.some.inj hcontra) (by decide)
      · intro _
        exact ⟨by rw [hem]; rfl, by rw [het]; rfl, by rw [hstk]; rfl, hrd⟩
      · intro _
        exact hst

/-- C8 witness: a successful wrapped call exercises the SUCCESS side
of the invariant. -/
theorem c8_witness :
    (audit_log_call emptyDB ctx0 "CREATE" "CAMPAIGN" "create_campaign"
      [] [] (.ok (.rStr "customers/1/campaigns/2")) "tb" 3).1.rows =
        emptyDB.rows ∨
    ∃ r, (audit_log_call emptyDB ctx0 "CREATE" "CAMPAIGN"
        "create_campaign" [] []
        (.ok (.rStr "customers/1/campaigns/2")) "tb" 3).1.rows =
        emptyDB.rows ++ [r] ∧
      (r.result_status = some "SUCCESS" ∨ r.result_status = some "ERROR") ∧
      (r.result_status = some "SUCCESS" →
        r.error_message = none ∧ r.error_type = none ∧
        r.error_code = none ∧ r.stack_trace = none ∧
        r.result_data.isSome = true) ∧
      (r.result_status = some "ERROR" →
        r.error_message.isSome = true ∧ r.error_type.isSome = true ∧
        r.stack_trace.isSome = true ∧ r.result_data = none) ∧
      (r.error_code.isSome = true → r.result_status = some "ERROR") :=
  c8_status_field_invariant emptyDB ctx0 "CREATE" "CAMPAIGN"
    "create_campaign" [] [] (.ok (.rStr "customers/1/campaigns/2")) "tb" 3

/-- C9: the parameter snapshot depends on the positional arguments
only through their count — their values are never recorded — the
count is stored under `args_count` (when positional arguments exist
and no keyword argument shadows that name), and surviving keyword
arguments are recorded under their own name with their own value. -/
theorem c9_positional_values_not_recorded (args args2 : List PyVal)
    (kwargs : List (String × PyVal)) :
    (args.length = args2.length →
      buildLogParams args kwargs = buildLogParams args2 kwargs) ∧
    (args ≠ [] → kwargs.lookup "args_count" = none →
      (buildLogParams args kwargs).lookup "args_count" =
        some (.vInt args.length)) ∧
    (∀ k v, kwargs.lookup k = some v → k ∉ sensitiveKeys →
      (buildLogParams args kwargs).lookup k = some v) :=
  ⟨fun h => buildLogParams_args_values_irrelevant args args2 kwargs h,
   fun h1 h2 => buildLogParams_args_count args kwargs h1 h2,
   fun k v hv hk => buildLogParams_lookup_kwarg args kwargs k v hk hv⟩

/-- C9 witness: two one-argument calls with different positional
values build identical snapshots recording `args_count = 1` and the
kept keyword argument. -/
theorem c9_witness :
    buildLogParams [PyVal.vStr "cust_a"]
        [("campaign_name", PyVal.vStr "X")] =
      buildLogParams [PyVal.vStr "cust_b"]
        [("campaign_name", PyVal.vStr "X")] ∧
    (buildLogParams [PyVal.vStr "cust_a"]
        [("campaign_name", PyVal.vStr "X")]).lookup "args_count" =
      some (.vInt 1) ∧
    (buildLogParams [PyVal.vStr "cust_a"]
        [("campaign_name", PyVal.vStr "X")]).lookup "campaign_name" =
      some (PyVal.vStr "X") :=
  ⟨(c9_positional_values_not_recorded [PyVal.vStr "cust_a"]
      [PyVal.vStr "cust_b"] [("campaign_name", PyVal.vStr "X")]).1 rfl,
   (c9_positional_values_not_recorded [PyVal.vStr "cust_a"]
      [PyVal.vStr "cust_b"] [("campaign_name", PyVal.vStr "X")]).2.1
      (List.cons_ne_nil _ _) rfl,
   (c9_positional_values_not_recorded [PyVal.vStr "cust_a"]
      [PyVal.vStr "cust_b"] [("campaign_name", PyVal.vStr "X")]).2.2
      "campaign_name" (PyVal.vStr "X") rfl (by decide)⟩

/-- C10: inserting with an empty-dict `parameters` (or any falsy
`result_data`) stores NULL in the corresponding column, and the entry
comes back from an unfiltered query with that field absent rather
than as the original empty value. -/
theorem c10_falsy_stored_as_null (db : AuditDB) (ctx : LogCtx)
    (ot rt fn : String) (p : Option PyVal) (rid : Option String)
    (st : String) (rd : Option PyVal) (em et ec stk : Option String)
    (ems : Option Nat) (limit : Nat)
    (hp : ∀ v, p = some v → pyTruthy v = false)
    (hrd : ∀ v, rd = some v → pyTruthy v = false)
    (hlim : db.rows.length + 1 ≤ limit) :
    ∃ r, (log_operation db ctx ot rt fn p rid st rd em et ec stk
        ems).rows = db.rows ++ [r] ∧
      r.parameters = none ∧ r.result_data = none ∧
      r ∈ get_audit_logs
        (log_operation db ctx ot rt fn p rid st rd em et ec stk ems)
        noFilters limit := by
  have hserp : serOK p = true := by
    cases p with
    | none => rfl
    | some v => simp [serOK, hp v rfl]
  have hserrd : serOK rd = true := by
    cases rd with
    | none => rfl
    | some v => simp [serOK, hrd v rfl]
  have htp : serText p = none := by
    cases p with
    | none => rfl
    | some v => simp [serText, hp v rfl]
  have htrd : serText rd = none := by
    cases rd with
    | none => rfl
    | some v => simp [serText, hrd v rfl]
  have hrows := log_operation_rows db ctx ot rt fn p rid st rd em et ec
    stk ems
  rw [hserp, hserrd] at hrows
  simp only [Bool.true_and, if_true] at hrows
  rw [htp, htrd] at hrows
  refine ⟨_, hrows, rfl, rfl, ?_⟩
  refine mem_get_audit_logs _ noFilters limit _ ?_
    (rowMatches_noFilters _) ?_
  · rw [hrows]
    exact List.mem_append_right _ (List.mem_singleton_self _)
  · rw [hrows, List.length_append]
    simpa using hlim

/-- C10 witness: empty-dict parameters and a zero `result_data` are
stored as NULL and returned as absent. -/
theorem c10_witness :
    ∃ r, (log_operation emptyDB ctx0 "CREATE" "CAMPAIGN"
        "create_campaign" (some (.vDict [])) none "SUCCESS"
        (some (.vInt 0)) none none none none none).rows =
        emptyDB.rows ++ [r] ∧
      r.parameters = none ∧ r.result_data = none ∧
      r ∈ get_audit_logs
        (log_operation emptyDB ctx0 "CREATE" "CAMPAIGN"
          "create_campaign" (some (.vDict [])) none "SUCCESS"
          (some (.vInt 0)) none none none none none)
        noFilters 10 :=
  c10_falsy_stored_as_null emptyDB ctx0 "CREATE" "CAMPAIGN"
    "create_campaign" (some (.vDict [])) none "SUCCESS"
    (some (.vInt 0)) none none none none none 10
    (fun v hv => by cases Option.some.inj hv; rfl)
    (fun v hv => by cases Option.some.inj hv; rfl)
    (by decide)

end AuditLog
